import Mathlib

/-!
Shallow embedding of the goalert-engine alert-evaluation core.

Source files embedded:
  * `alert/rule.go`   — expression evaluator (`Evaluate`, `convertPayload`,
    `evaluateConditions`, `evaluateComplexCondition`, `evaluateSingleCondition`,
    `checkSimpleCondition`, `shouldAlert`, `generateAlertMessage`).
  * `alert` manager file — `RuleManager`, `HandleMQTTMessage`,
    `createRuleSnapshot`, `evaluateRule`, `shouldTriggerAlert`,
    `markAlertTriggered`, `getBaseCooldown`, `getCooldown`, `isValidValue`,
    `extractAddressFromTopic`, `getLevelString`.
  * `supabase` client — the argument tuple and request body of `InsertAlert`.

Modelling conventions:
  * Go `float64` values are modelled as `ℚ`.  Every comparison and every
    arithmetic step the claims touch involves integers or small decimal
    literals that are exact in IEEE-754 double precision, so order and
    equality agree with the float semantics of the source.
  * `time.Time` instants and `time.Duration` are modelled as `Int`
    nanoseconds; `time.Now()` becomes an explicit `now` parameter.
  * Go maps become association lists with an upsert (`mapInsert`); lookup is
    `List.lookup`.  A missing `int` map entry reads as the zero value `0`,
    exactly as in Go.
  * Methods that mutate their receiver return the updated value explicitly.
-/

namespace GoAlert

/-- Go `any` values as they occur after `json.Unmarshal` and in the device
cache: the numeric and string cases distinguished by the source's type
switches, plus the shapes (`bool`, JSON object, JSON array) that fall into
the `default` branch of every switch. -/
inductive GoValue where
  | f64 (v : ℚ)
  | f32 (v : ℚ)
  | int (v : Int)
  | i32 (v : Int)
  | i64 (v : Int)
  | str (v : String)
  | null
  | boolean (v : Bool)
  | object
  | array
deriving DecidableEq

/-- Upsert into an association list: replace the first binding of the key, or
append a new binding.  This is the Go map assignment `m[k] = v`. -/
def mapInsert [BEq α] (m : List (α × β)) (k : α) (v : β) : List (α × β) :=
  match m with
  | [] => [(k, v)]
  | (k2, v2) :: rest => if k2 == k then (k, v) :: rest else (k2, v2) :: mapInsert rest k v

/-- Go `strings.Contains s sub`: `sub` occurs as a contiguous substring of
`s`, on the character lists. -/
def chContains (s sub : List Char) : Bool :=
  (List.range (s.length + 1)).any fun i => (s.drop i).take sub.length == sub

/-- Go `strings.Contains s sub`: `sub` occurs as a contiguous substring of
`s`. -/
def strContains (s sub : String) : Bool :=
  chContains s.toList sub.toList

/-- Split a character list at every separator character, keeping empty
pieces. -/
def chSplitOnChar (p : Char -> Bool) : List Char -> List Char -> List (List Char)
  | [], acc => [acc.reverse]
  | c :: rest, acc =>
    if p c then acc.reverse :: chSplitOnChar p rest []
    else chSplitOnChar p rest (c :: acc)

/-- Go `strings.Fields`: split around runs of whitespace, dropping empty
pieces. -/
def goFields (s : String) : List String :=
  ((chSplitOnChar Char.isWhitespace s.toList []).map (fun l => String.mk l)).filter
    (fun t => t ≠ "")

/-- Split a character list on each non-overlapping occurrence of a nonempty
separator, scanning left to right.  The fuel argument (always at least the
list length plus one) makes the recursion structural. -/
def chSplitOn (sep : List Char) : Nat -> List Char -> List Char -> List (List Char)
  | 0, l, acc => [acc.reverse ++ l]
  | _ + 1, [], acc => [acc.reverse]
  | fuel + 1, c :: rest, acc =>
    if (c :: rest).take sep.length == sep then
      acc.reverse :: chSplitOn sep fuel ((c :: rest).drop sep.length) []
    else
      chSplitOn sep fuel rest (c :: acc)

/-- Go `strings.Split s sep` for a nonempty separator. -/
def goSplit (s sep : String) : List String :=
  (chSplitOn sep.toList (s.toList.length + 1) s.toList []).map (fun l => String.mk l)

/-- Go `strings.TrimSpace`: drop leading and trailing whitespace. -/
def goTrimSpace (s : String) : String :=
  String.mk (((s.toList.dropWhile Char.isWhitespace).reverse.dropWhile Char.isWhitespace).reverse)

/-- Numeric value of a list of decimal digit characters. -/
def digitsVal (l : List Char) : Nat :=
  l.foldl (fun a c => a * 10 + (c.toNat - 48)) 0

/-- Go `strconv.ParseFloat s 64` restricted to the plain decimal forms the
engine feeds it: optional sign, integer digits, optional fraction, optional
decimal exponent.  Anything else (in particular the empty string and device
names such as `"D392"`) fails, exactly as `ParseFloat` fails on them. -/
def parseFloat? (s : String) : Option ℚ :=
  let cs := s.toList
  let signAndRest : ℚ × List Char :=
    match cs with
    | '-' :: rest => (-1, rest)
    | '+' :: rest => (1, rest)
    | _ => (1, cs)
  let sign := signAndRest.1
  let body := signAndRest.2
  let mant := body.takeWhile (fun c => c != 'e' && c != 'E')
  let expPart := body.dropWhile (fun c => c != 'e' && c != 'E')
  let ip := mant.takeWhile (fun c => c != '.')
  let fpRest := mant.dropWhile (fun c => c != '.')
  let fp := fpRest.drop 1
  if ip.all Char.isDigit && fp.all Char.isDigit && (fpRest.length ≤ fp.length + 1)
      && (!ip.isEmpty || !fp.isEmpty) then
    let mantVal : ℚ := (sign * (digitsVal ip : ℚ)) + sign * (digitsVal fp : ℚ) / ((10 : ℚ) ^ fp.length)
    match expPart with
    | [] => some mantVal
    | _ :: expBody =>
      let expSignAndDigits : Int × List Char :=
        match expBody with
        | '-' :: rest => (-1, rest)
        | '+' :: rest => (1, rest)
        | _ => (1, expBody)
      if expSignAndDigits.2.all Char.isDigit && !expSignAndDigits.2.isEmpty then
        some (mantVal * (10 : ℚ) ^ (expSignAndDigits.1 * (digitsVal expSignAndDigits.2 : Int)))
      else
        none
  else
    none

/-- Embeds `alert.AlertCondition` (`rule.go`). -/
structure AlertCondition where
  id : Int
  device : String
  operator : String
  threshold : Int
  messageTemplate : String
  level : Int
deriving DecidableEq

/-- Embeds `alert.AlertRule` (`rule.go`).  `lastAlertTime` maps a condition ID to the
instant of its last accepted trigger; `cooldownPeriod` is in nanoseconds. -/
structure AlertRule where
  id : Int
  topics : List String
  table : String
  field : String
  machine : String
  category : String
  conditions : List AlertCondition
  lastAlertTime : List (Int × Int)
  cooldownPeriod : Int
deriving DecidableEq

/-- Nanoseconds in one second (`time.Second`). -/
def nsPerSecond : Int := 1000000000

/-- Embeds `getLevelString` from the manager file: 3 ↦ CRITICAL, 2 ↦ ERROR,
anything else ↦ WARNING. -/
def getLevelString (level : Int) : String :=
  if level = 3 then "CRITICAL"
  else if level = 2 then "ERROR"
  else "WARNING"

/-- Embeds `math.Round`: round to the nearest integer, half away from zero. -/
def mathRound (q : ℚ) : Int :=
  if 0 ≤ q then ⌊q + 1/2⌋ else -⌊-q + 1/2⌋

/-- Embeds `generateAlertMessage` (`rule.go`): the JSON serialisation of the
`AlertMessage` struct — fields `device`, `current` (rounded), `threshold`
(rounded), `message` (raw template), `Severity` — in declaration order, as
`json.Marshal` emits them.  Marshalling cannot fail on this struct, so the
`"\x7b\x7d"` fallback branch of the source is unreachable in the model. -/
def generateAlertMessage (condition : AlertCondition) (value : ℚ) : String :=
  "\x7b\"device\":\"" ++ condition.device ++
  "\",\"current\":" ++ toString (mathRound value) ++
  ",\"threshold\":" ++ toString (mathRound (condition.threshold : ℚ)) ++
  ",\"message\":\"" ++ condition.messageTemplate ++
  "\",\"Severity\":\"" ++ getLevelString condition.level ++ "\"\x7d"

/-- Embeds `convertPayload`'s per-value coercion to `float64`: numerics cast,
strings go through `strconv.ParseFloat`, everything else errors (`none`). -/
def convertValue? (v : GoValue) : Option ℚ :=
  match v with
  | .f64 q => some q
  | .f32 q => some q
  | .int n => some (n : ℚ)
  | .i32 n => some (n : ℚ)
  | .i64 n => some (n : ℚ)
  | .str s => parseFloat? s
  | _ => none

/-- Embeds `convertPayload` (`rule.go`): coerce every payload value to `float64`,
failing as a whole if any single value fails. -/
def convertPayload (payload : List (String × GoValue)) : Option (List (String × ℚ)) :=
  payload.mapM (fun kv => (convertValue? kv.2).map (fun q => (kv.1, q)))

/-- Embeds `checkSimpleCondition` (`rule.go`): look the condition's device up in the
converted payload and compare against `float64(condition.Threshold)` with the
condition's operator; unknown operators and missing devices yield `false`.
The Go `switch` is rendered as the equivalent first-match chain. -/
def checkSimpleCondition (condition : AlertCondition) (values : List (String × ℚ)) : Bool :=
  match values.lookup condition.device with
  | none => false
  | some val =>
    let threshold : ℚ := (condition.threshold : ℚ)
    if condition.operator = ">" then decide (val > threshold)
    else if condition.operator = "<" then decide (val < threshold)
    else if condition.operator = ">=" then decide (val ≥ threshold)
    else if condition.operator = "<=" then decide (val ≤ threshold)
    else if condition.operator = "==" then decide (val = threshold)
    else if condition.operator = "!=" then decide (val ≠ threshold)
    else false

/-- Embeds `evaluateSingleCondition` (`rule.go`): parse one atom
`<device> <op> <rhs>` with `strings.Fields`; the rhs is a decimal literal or
a reference to another device in the same snapshot; any malformed piece
yields `false`.  The Go `switch` on the operator is rendered as the
equivalent first-match chain. -/
def evaluateSingleCondition (condition : String) (values : List (String × ℚ)) : Bool :=
  match goFields condition with
  | [device, operator, thresholdStr] =>
    match values.lookup device with
    | none => false
    | some val =>
      let threshold? : Option ℚ :=
        match parseFloat? thresholdStr with
        | some t => some t
        | none => values.lookup thresholdStr
      match threshold? with
      | none => false
      | some threshold =>
        if operator = ">" then decide (val > threshold)
        else if operator = "<" then decide (val < threshold)
        else if operator = ">=" then decide (val ≥ threshold)
        else if operator = "<=" then decide (val ≤ threshold)
        else if operator = "==" then decide (val = threshold)
        else if operator = "!=" then decide (val ≠ threshold)
        else false
  | _ => false

/-- Embeds `evaluateANDConditions` (`rule.go`): all atoms must hold. -/
def evaluateANDConditions (conditions : List String) (values : List (String × ℚ)) : Bool :=
  conditions.all (fun cond => evaluateSingleCondition cond values)

/-- Embeds `evaluateORConditions` (`rule.go`): some atom must hold. -/
def evaluateORConditions (conditions : List String) (values : List (String × ℚ)) : Bool :=
  conditions.any (fun cond => evaluateSingleCondition cond values)

/-- Embeds `evaluateComplexCondition` (`rule.go`): split the operator string on the
substring `AND` if it occurs, otherwise on `OR`; trim each piece; combine
with AND or OR accordingly. -/
def evaluateComplexCondition (operator : String) (values : List (String × ℚ)) : Bool :=
  let conditions :=
    if strContains operator "AND" then goSplit operator "AND"
    else goSplit operator "OR"
  let conditions := conditions.map goTrimSpace
  if strContains operator "AND" then evaluateANDConditions conditions values
  else evaluateORConditions conditions values

/-- The `for _, condition := range r.Conditions` loop body of
`evaluateConditions` (`rule.go`), recursing over the remaining conditions. -/
def evaluateConditionsLoop (deviceValues : List (String × ℚ)) :
    List AlertCondition → Bool × String
  | [] => (false, "")
  | condition :: rest =>
    if strContains condition.operator "AND" || strContains condition.operator "OR" then
      if evaluateComplexCondition condition.operator deviceValues then (true, condition.device)
      else evaluateConditionsLoop deviceValues rest
    else
      if checkSimpleCondition condition deviceValues then (true, condition.device)
      else evaluateConditionsLoop deviceValues rest

/-- Embeds `evaluateConditions` (`rule.go`): scan the rule's whole condition list in
order; a condition whose operator mentions `AND` or `OR` is evaluated as a
compound expression, the rest as simple comparisons; return the first hit
with its device, else `(false, "")`. -/
def evaluateConditions (r : AlertRule) (deviceValues : List (String × ℚ)) : Bool × String :=
  evaluateConditionsLoop deviceValues r.conditions

/-- Embeds `shouldAlert` (`rule.go`): the rule-local per-condition cooldown; permits
when the condition has never fired or at least `cooldownPeriod` has passed,
recording `now` when it permits. -/
def shouldAlert (r : AlertRule) (id : Int) (now : Int) : Bool × AlertRule :=
  match r.lastAlertTime.lookup id with
  | none => (true, { r with lastAlertTime := mapInsert r.lastAlertTime id now })
  | some lastAlert =>
    if now - lastAlert ≥ r.cooldownPeriod then
      (true, { r with lastAlertTime := mapInsert r.lastAlertTime id now })
    else
      (false, r)

/-- Embeds `Evaluate` (`rule.go`): convert the payload, test the rule's conditions,
consult the passed condition's cooldown, and format the message from the
passed condition.  Returns the triggered flag, the message, and the updated
rule (its per-condition cooldown map may have changed). -/
def Evaluate (r : AlertRule) (payload : List (String × GoValue)) (condition : AlertCondition)
    (now : Int) : Bool × String × AlertRule :=
  match convertPayload payload with
  | none => (false, "", r)
  | some floatPayload =>
    if !(evaluateConditions r floatPayload).1 then (false, "", r)
    else
      match shouldAlert r condition.id now with
      | (false, r2) => (false, "", r2)
      | (true, r2) =>
        let message := generateAlertMessage condition ((floatPayload.lookup condition.device).getD 0)
        (true, message, r2)

/-- Embeds `cachedValue` (manager file): a cached device reading with its
observation instant. -/
structure cachedValue where
  value : GoValue
  timestamp : Int
deriving DecidableEq

/-- Embeds `cacheKey` (manager file): the `(topic, address)` pair keying the device
cache. -/
structure cacheKey where
  Topic : String
  Address : String
deriving DecidableEq

/-- Embeds `RuleManager` (manager file), restricted to the state the evaluation path
reads and writes.  `ruleChans` keeps the IDs of the rules that own a signal
channel; `lastAlertTimes` and `alertCounts` are the Alert Limiter state. -/
structure RuleManager where
  Rules : List AlertRule
  ruleChans : List Int
  deviceCache : List (cacheKey × cachedValue)
  cacheTTL : Int
  lastAlertTimes : List (String × Int)
  alertCounts : List (String × Int)
deriving DecidableEq

/-- Embeds `isValidValue` (manager file): numerics must be nonzero, strings must not
be empty, `"0"` or `"0.0"`, `nil` is invalid, and every other dynamic type
falls into the `default: return true` branch. -/
def isValidValue (value : GoValue) : Bool :=
  match value with
  | .f64 v => v != 0
  | .f32 v => v != 0
  | .int v => v != 0
  | .i32 v => v != 0
  | .i64 v => v != 0
  | .str v => v != "" && v != "0" && v != "0.0"
  | .null => false
  | _ => true

/-- Embeds `extractAddressFromTopic` (manager file): the last `/`-separated segment
of the topic.  The split never returns an empty list, so the
`len(parts) == 0` guard of the source is the default of `getLastD`. -/
def extractAddressFromTopic (topic : String) : String :=
  let parts := goSplit topic "/"
  parts.getLastD ""

/-- Embeds `HandleMQTTMessage` (manager file).  The `payload []byte` argument is
modelled after `json.Unmarshal`: `none` for a parse failure, otherwise the
decoded key/value object.  Returns the updated manager state together with
the IDs of the rules whose channel receives the (possibly coalesced) signal
send; every early-return path leaves the state unchanged and signals no
rule. -/
def HandleMQTTMessage (m : RuleManager) (topic : String)
    (msg? : Option (List (String × GoValue))) (now : Int) : RuleManager × List Int :=
  match msg? with
  | none => (m, [])
  | some msg =>
    match msg.lookup "address" with
    | some (.str address) =>
      match msg.lookup "value" with
      | none => (m, [])
      | some value =>
        if !isValidValue value then (m, [])
        else if extractAddressFromTopic topic ≠ address then (m, [])
        else
          let key : cacheKey := { Topic := topic, Address := address }
          let m2 := { m with deviceCache := mapInsert m.deviceCache key { value := value, timestamp := now } }
          let signalled :=
            (m.Rules.filter (fun rule => rule.topics.contains topic && m.ruleChans.contains rule.id)).map
              (fun rule => rule.id)
          (m2, signalled)
    | _ => (m, [])

/-- The `for _, ruleTopic := range rule.Topics` loop of `createRuleSnapshot`
(manager file): require each topic's cache entry to be present, fresh by TTL
and valid, accumulating `snapshot[devAddr] = value`. -/
def snapshotLoop (m : RuleManager) (now : Int) :
    List String → List (String × GoValue) → Option (List (String × GoValue))
  | [], snapshot => some snapshot
  | ruleTopic :: rest, snapshot =>
    let devAddr := extractAddressFromTopic ruleTopic
    match m.deviceCache.lookup { Topic := ruleTopic, Address := devAddr } with
    | none => none
    | some cached =>
      if now - cached.timestamp > m.cacheTTL || !isValidValue cached.value then none
      else snapshotLoop m now rest (mapInsert snapshot devAddr cached.value)

/-- Embeds `createRuleSnapshot` (manager file): build the per-rule snapshot, then
return it only when it has exactly one entry per rule topic; otherwise
`none`. -/
def createRuleSnapshot (m : RuleManager) (rule : AlertRule) (now : Int) :
    Option (List (String × GoValue)) :=
  match snapshotLoop m now rule.topics [] with
  | none => none
  | some snapshot =>
    if snapshot.length = rule.topics.length then some snapshot else none

/-- Embeds `getBaseCooldown` (manager file): 30 s for Critical (3), 1 min for Error
(2), 5 min otherwise, in nanoseconds. -/
def getBaseCooldown (level : Int) : Int :=
  if level = 3 then 30 * nsPerSecond
  else if level = 2 then 60 * nsPerSecond
  else 300 * nsPerSecond

/-- Go's `time.Duration(f)` conversion from `float64`: truncate toward
zero. -/
def durationOfFloat (q : ℚ) : Int :=
  if 0 ≤ q then ⌊q⌋ else ⌈q⌉

/-- Embeds `getCooldown` (manager file): exponential backoff
`base * 2^count` clamped between `base` and `8 * base`.  The `float64`
arithmetic of the source is carried out in `ℚ`; for every reachable count the
clamped value is an integer that `float64` represents exactly, so the final
`time.Duration` conversion agrees. -/
def getCooldown (m : RuleManager) (alertKey : String) (level : Int) : Int :=
  let count := (m.alertCounts.lookup alertKey).getD 0
  let baseCooldown := getBaseCooldown level
  let maxCooldown := baseCooldown * 8
  let expCooldown : ℚ := (baseCooldown : ℚ) * (2 : ℚ) ^ count
  let clampedCooldown : ℚ := max (baseCooldown : ℚ) (min expCooldown (maxCooldown : ℚ))
  durationOfFloat clampedCooldown

/-- Embeds `shouldTriggerAlert` (manager file): permit when the key has never
triggered or its effective cooldown has elapsed.  The method only reads the
limiter state; the returned manager is the receiver itself. -/
def shouldTriggerAlert (m : RuleManager) (alertKey : String) (level : Int) (now : Int) :
    Bool × RuleManager :=
  match m.lastAlertTimes.lookup alertKey with
  | none => (true, m)
  | some lastTime =>
    if now - lastTime > getCooldown m alertKey level then (true, m) else (false, m)

/-- Embeds `markAlertTriggered` (manager file): reset the count to zero when the key
last triggered more than `4 * base` ago, then increment it and stamp
`now`. -/
def markAlertTriggered (m : RuleManager) (alertKey : String) (level : Int) (now : Int) :
    RuleManager :=
  let baseCooldown := getBaseCooldown level
  let counts :=
    match m.lastAlertTimes.lookup alertKey with
    | some lastTime =>
      if now - lastTime > baseCooldown * 4 then mapInsert m.alertCounts alertKey 0
      else m.alertCounts
    | none => m.alertCounts
  { m with
    alertCounts := mapInsert counts alertKey ((counts.lookup alertKey).getD 0 + 1),
    lastAlertTimes := mapInsert m.lastAlertTimes alertKey now }

/-- The argument tuple the manager passes to `supabase.InsertAlert` in
`evaluateRule`: the rule's sink table, the condition's device, and the
formatted message (besides the configuration). -/
structure sinkCall where
  table : String
  device : String
  message : String
deriving DecidableEq

/-- The `requestBody` map `supabase.InsertAlert` serialises and POSTs: the
persisted record carries exactly a `device_id` and a `message` field. -/
def insertAlertRequestBody (deviceID message : String) : List (String × String) :=
  [("device_id", deviceID), ("message", message)]

/-- The REST endpoint `supabase.InsertAlert` posts to. -/
def insertAlertURL (supabaseURL table : String) : String :=
  supabaseURL ++ "/rest/v1/" ++ table

/-- The `for _, condition := range rule.Conditions` loop of `evaluateRule`
(manager file): evaluate each condition, and on a permitted trigger emit the
sink call and mark the limiter.  Returns the manager, the rule (whose local
cooldown map the evaluations update) and the emitted sink calls in order. -/
def evalRuleLoop (m : RuleManager) (rule : AlertRule) (snapshot : List (String × GoValue))
    (now : Int) : List AlertCondition → RuleManager × AlertRule × List sinkCall
  | [] => (m, rule, [])
  | condition :: rest =>
    match Evaluate rule snapshot condition now with
    | (triggered, message, rule2) =>
      if triggered then
        let alertKey := toString rule2.id ++ "_" ++ toString condition.level
        match shouldTriggerAlert m alertKey condition.level now with
        | (true, m1) =>
          let call : sinkCall := { table := rule2.table, device := condition.device, message := message }
          let m2 := markAlertTriggered m1 alertKey condition.level now
          match evalRuleLoop m2 rule2 snapshot now rest with
          | (m3, rule3, calls) => (m3, rule3, call :: calls)
        | (false, m1) => evalRuleLoop m1 rule2 snapshot now rest
      else evalRuleLoop m rule2 snapshot now rest

/-- Embeds `evaluateRule` (manager file): build the snapshot and, when it is
complete, run every condition of the rule through `Evaluate`, the Alert
Limiter and the sink. -/
def evaluateRule (m : RuleManager) (rule : AlertRule) (now : Int) :
    RuleManager × AlertRule × List sinkCall :=
  match createRuleSnapshot m rule now with
  | none => (m, rule, [])
  | some snapshot => evalRuleLoop m rule snapshot now rule.conditions

/-! ### Association-list lemmas -/

theorem lookup_mapInsert_self [BEq α] [LawfulBEq α] (m : List (α × β)) (k : α) (v : β) :
    (mapInsert m k v).lookup k = some v := by
  induction m with
  | nil => simp [mapInsert, List.lookup]
  | cons hd tl ih =>
    rcases hd with ⟨k2, v2⟩
    by_cases h : k2 = k
    · simp [mapInsert, h, List.lookup]
    · simp only [mapInsert, beq_iff_eq, h, if_false, List.lookup]
      rw [show (k == k2) = false by simp [Ne.symm h]]
      exact ih

theorem lookup_mapInsert_ne [BEq α] [LawfulBEq α] (m : List (α × β)) (k k2 : α) (v : β)
    (h : k2 ≠ k) : (mapInsert m k v).lookup k2 = m.lookup k2 := by
  have hbeq : (k2 == k) = false := by simp [h]
  induction m with
  | nil => simp [mapInsert, List.lookup, hbeq]
  | cons hd tl ih =>
    rcases hd with ⟨k3, v3⟩
    by_cases h3 : k3 = k
    · subst h3
      simp only [mapInsert, beq_self_eq_true, if_true]
      simp [List.lookup, hbeq]
    · simp only [mapInsert, beq_iff_eq, h3, if_false, List.lookup]
      cases hk23 : k2 == k3 <;> simp [ih]

theorem lookup_mapInsert_isSome [BEq α] [LawfulBEq α] (m : List (α × β)) (k k2 : α) (v : β)
    (h : (m.lookup k2).isSome = true) : ((mapInsert m k v).lookup k2).isSome = true := by
  by_cases hk : k2 = k
  · subst hk; rw [lookup_mapInsert_self]; rfl
  · rw [lookup_mapInsert_ne m k k2 v hk]; exact h

/-! ### Arithmetic helper lemmas -/

theorem getBaseCooldown_pos (level : Int) : 0 < getBaseCooldown level := by
  unfold getBaseCooldown nsPerSecond
  split
  · norm_num
  · split <;> norm_num

theorem durationOfFloat_intCast (n : Int) : durationOfFloat (n : ℚ) = n := by
  unfold durationOfFloat
  split
  · exact Int.floor_intCast n
  · exact Int.ceil_intCast n

/-- Clamp as the specification words it: `clamp(lo, x, hi)` floors `x` at `lo`
and caps it at `hi`. -/
def specClamp (lo x hi : ℚ) : ℚ := max lo (min x hi)

theorem getCooldown_eq_clamp (m : RuleManager) (key : String) (level : Int) :
    getCooldown m key level =
      durationOfFloat (specClamp (getBaseCooldown level : ℚ)
        ((getBaseCooldown level : ℚ) * 2 ^ ((m.alertCounts.lookup key).getD 0))
        (8 * (getBaseCooldown level : ℚ))) := by
  simp only [getCooldown, specClamp]
  congr 2
  push_cast
  ring_nf

theorem getCooldown_of_count (m : RuleManager) (key : String) (level : Int) (count : Int)
    (h : (m.alertCounts.lookup key).getD 0 = count) :
    getCooldown m key level =
      durationOfFloat (max (getBaseCooldown level : ℚ)
        (min ((getBaseCooldown level : ℚ) * 2 ^ count) ((getBaseCooldown level : ℚ) * 8))) := by
  simp only [getCooldown, h]
  congr 2
  push_cast
  ring_nf

theorem cooldown_count_zero (m : RuleManager) (key : String) (level : Int)
    (h : (m.alertCounts.lookup key).getD 0 = 0) :
    getCooldown m key level = getBaseCooldown level := by
  rw [getCooldown_of_count m key level 0 h]
  have hq : (0 : ℚ) < (getBaseCooldown level : ℚ) := by exact_mod_cast getBaseCooldown_pos level
  rw [zpow_zero, mul_one, min_eq_left (by nlinarith), max_self]
  exact durationOfFloat_intCast _

theorem cooldown_count_one (m : RuleManager) (key : String) (level : Int)
    (h : (m.alertCounts.lookup key).getD 0 = 1) :
    getCooldown m key level = 2 * getBaseCooldown level := by
  rw [getCooldown_of_count m key level 1 h]
  have hq : (0 : ℚ) < (getBaseCooldown level : ℚ) := by exact_mod_cast getBaseCooldown_pos level
  rw [zpow_one, min_eq_left (by nlinarith), max_eq_right (by nlinarith)]
  rw [show ((getBaseCooldown level : ℚ) * 2) = ((2 * getBaseCooldown level : Int) : ℚ) by push_cast; ring]
  exact durationOfFloat_intCast _

theorem cooldown_count_ge_three (m : RuleManager) (key : String) (level : Int)
    (h : 3 ≤ (m.alertCounts.lookup key).getD 0) :
    getCooldown m key level = 8 * getBaseCooldown level := by
  rw [getCooldown_of_count m key level ((m.alertCounts.lookup key).getD 0) rfl]
  have hq : (0 : ℚ) < (getBaseCooldown level : ℚ) := by exact_mod_cast getBaseCooldown_pos level
  have h8 : (8 : ℚ) ≤ (2 : ℚ) ^ ((m.alertCounts.lookup key).getD 0) := by
    have := zpow_le_zpow_right₀ (by norm_num : (1 : ℚ) ≤ 2) h
    calc (8 : ℚ) = (2 : ℚ) ^ (3 : Int) := by norm_num
    _ ≤ _ := this
  rw [min_eq_right (by nlinarith), max_eq_right (by nlinarith)]
  rw [show ((getBaseCooldown level : ℚ) * 8) = ((8 * getBaseCooldown level : Int) : ℚ) by push_cast; ring]
  exact durationOfFloat_intCast _

/-! ### Claim C4 -/

/-- C4: `getCooldown` equals `clamp(base, base * 2^count, 8 * base)` with the
base cooldown 30 s / 60 s / 300 s for levels 3 / 2 / 1; it equals the base
exactly when the count is 0 and caps at `8 * base` for every count ≥ 3. -/
theorem C4_cooldown_formula :
    (∀ (m : RuleManager) (key : String) (level : Int),
        getCooldown m key level =
          durationOfFloat (specClamp (getBaseCooldown level : ℚ)
            ((getBaseCooldown level : ℚ) * 2 ^ ((m.alertCounts.lookup key).getD 0))
            (8 * (getBaseCooldown level : ℚ)))) ∧
    getBaseCooldown 3 = 30 * nsPerSecond ∧
    getBaseCooldown 2 = 60 * nsPerSecond ∧
    getBaseCooldown 1 = 300 * nsPerSecond ∧
    (∀ (m : RuleManager) (key : String) (level : Int),
        (m.alertCounts.lookup key).getD 0 = 0 →
        getCooldown m key level = getBaseCooldown level) ∧
    (∀ (m : RuleManager) (key : String) (level : Int),
        3 ≤ (m.alertCounts.lookup key).getD 0 →
        getCooldown m key level = 8 * getBaseCooldown level) := by
  refine ⟨getCooldown_eq_clamp, by norm_num [getBaseCooldown], by norm_num [getBaseCooldown],
    by norm_num [getBaseCooldown], cooldown_count_zero, cooldown_count_ge_three⟩

/-! ### Limiter state lemmas -/

theorem markAlertTriggered_count (m : RuleManager) (key : String) (level now : Int) :
    ((markAlertTriggered m key level now).alertCounts.lookup key).getD 0 =
      (match m.lastAlertTimes.lookup key with
       | some lastTime =>
         if now - lastTime > getBaseCooldown level * 4 then 1
         else (m.alertCounts.lookup key).getD 0 + 1
       | none => (m.alertCounts.lookup key).getD 0 + 1) := by
  unfold markAlertTriggered
  cases hl : m.lastAlertTimes.lookup key with
  | none => simp [lookup_mapInsert_self]
  | some lastTime =>
    by_cases hgt : now - lastTime > getBaseCooldown level * 4
    · simp [hgt, lookup_mapInsert_self]
    · simp [hgt, lookup_mapInsert_self]

theorem markAlertTriggered_lastTime (m : RuleManager) (key : String) (level now : Int) :
    (markAlertTriggered m key level now).lastAlertTimes.lookup key = some now := by
  unfold markAlertTriggered
  exact lookup_mapInsert_self _ _ _

theorem shouldTriggerAlert_snd (m : RuleManager) (key : String) (level now : Int) :
    (shouldTriggerAlert m key level now).2 = m := by
  unfold shouldTriggerAlert
  split
  · rfl
  · split <;> rfl

/-! ### Claim C5 -/

/-- C5: `markAlertTriggered` resets the count to 0 before incrementing exactly
when a prior record exists and more than `4 * baseCooldown(level)` has
elapsed; it then increments the count and stamps `now`, so a trigger after
such a quiet period leaves the count at 1 and the next effective cooldown at
`base * 2^1`. -/
theorem C5_mark_reset :
    (∀ (m : RuleManager) (key : String) (level now : Int),
        ((markAlertTriggered m key level now).alertCounts.lookup key).getD 0 =
          (match m.lastAlertTimes.lookup key with
           | some lastTime =>
             if now - lastTime > getBaseCooldown level * 4 then 1
             else (m.alertCounts.lookup key).getD 0 + 1
           | none => (m.alertCounts.lookup key).getD 0 + 1)) ∧
    (∀ (m : RuleManager) (key : String) (level now : Int),
        (markAlertTriggered m key level now).lastAlertTimes.lookup key = some now) ∧
    (∀ (m : RuleManager) (key : String) (level now lastTime : Int),
        m.lastAlertTimes.lookup key = some lastTime →
        now - lastTime > getBaseCooldown level * 4 →
        getCooldown (markAlertTriggered m key level now) key level =
          2 * getBaseCooldown level) := by
  refine ⟨markAlertTriggered_count, markAlertTriggered_lastTime, ?_⟩
  intro m key level now lastTime hl hq
  apply cooldown_count_one
  rw [markAlertTriggered_count, hl]
  simp [hq]

/-! ### Claim C6 -/

/-- C6: `shouldTriggerAlert` permits a key with no prior record, otherwise
permits iff strictly more than the effective cooldown has elapsed; it never
modifies the limiter state, so consecutive calls agree. -/
theorem C6_idempotent_read :
    (∀ (m : RuleManager) (key : String) (level now : Int),
        m.lastAlertTimes.lookup key = none →
        shouldTriggerAlert m key level now = (true, m)) ∧
    (∀ (m : RuleManager) (key : String) (level now lastTime : Int),
        m.lastAlertTimes.lookup key = some lastTime →
        shouldTriggerAlert m key level now =
          (decide (now - lastTime > getCooldown m key level), m)) ∧
    (∀ (m : RuleManager) (key : String) (level now : Int),
        (shouldTriggerAlert m key level now).2 = m) ∧
    (∀ (m : RuleManager) (key : String) (level now : Int),
        (shouldTriggerAlert (shouldTriggerAlert m key level now).2 key level now).1 =
          (shouldTriggerAlert m key level now).1) := by
  refine ⟨?_, ?_, shouldTriggerAlert_snd, ?_⟩
  · intro m key level now h
    unfold shouldTriggerAlert
    rw [h]
  · intro m key level now lastTime h
    unfold shouldTriggerAlert
    rw [h]
    by_cases hc : now - lastTime > getCooldown m key level <;> simp [hc]
  · intro m key level now
    rw [shouldTriggerAlert_snd]

/-! ### Claim C9 -/

/-- C9: the validity filter rejects zero numerics, `"0"`, `"0.0"`, the empty
string and `nil`, accepts the int 5 and the float 15, and in general accepts
a numeric iff it is nonzero and a string iff it is neither empty nor `"0"`
nor `"0.0"`. -/
theorem C9_validity_filter :
    isValidValue (.int 0) = false ∧ isValidValue (.f64 0) = false ∧
    isValidValue (.str "0") = false ∧ isValidValue (.str "0.0") = false ∧
    isValidValue (.str "") = false ∧ isValidValue .null = false ∧
    isValidValue (.int 5) = true ∧ isValidValue (.f64 15) = true ∧
    (∀ q : ℚ, isValidValue (.f64 q) = true ↔ q ≠ 0) ∧
    (∀ q : ℚ, isValidValue (.f32 q) = true ↔ q ≠ 0) ∧
    (∀ n : Int, isValidValue (.int n) = true ↔ n ≠ 0) ∧
    (∀ n : Int, isValidValue (.i32 n) = true ↔ n ≠ 0) ∧
    (∀ n : Int, isValidValue (.i64 n) = true ↔ n ≠ 0) ∧
    (∀ s : String, isValidValue (.str s) = true ↔ (s ≠ "" ∧ s ≠ "0" ∧ s ≠ "0.0")) := by
  refine ⟨rfl, rfl, by decide, by decide, rfl, rfl, by decide, by decide, ?_, ?_, ?_, ?_, ?_, ?_⟩
    <;> intro x <;> simp [isValidValue, and_assoc]

/-! ### Shared concrete fixtures -/

/-- A condition on device `dev7` used by the boolean-value scenario. -/
def condBool : AlertCondition :=
  { id := 3, device := "dev7", operator := ">", threshold := 1,
    messageTemplate := "mb", level := 2 }

/-- A rule depending on the single topic `plant/dev7`. -/
def ruleBool : AlertRule :=
  { id := 9, topics := ["plant/dev7"], table := "alerts", field := "f",
    machine := "machB", category := "catB", conditions := [condBool],
    lastAlertTime := [], cooldownPeriod := 30 * nsPerSecond }

/-- A manager with an empty cache and no rules. -/
def mgrEmpty : RuleManager :=
  { Rules := [], ruleChans := [], deviceCache := [], cacheTTL := 300 * nsPerSecond,
    lastAlertTimes := [], alertCounts := [] }

/-- A manager whose limiter has one record for key `7_3` (count 0, time 0). -/
def mgrCount : RuleManager :=
  { Rules := [], ruleChans := [], deviceCache := [], cacheTTL := 300 * nsPerSecond,
    lastAlertTimes := [("7_3", 0)], alertCounts := [("7_3", 0)] }

/-! ### Claim C10 -/

/-- C10: a value of a dynamic type outside the switch cases — a boolean or a
decoded JSON object or array — passes the validity filter, is accepted into
the device cache by `HandleMQTTMessage`, counts as valid in
`createRuleSnapshot`, yet fails payload coercion in the evaluator. -/
theorem C10_unknown_types_accepted :
    (∀ b : Bool, isValidValue (.boolean b) = true) ∧
    isValidValue .object = true ∧ isValidValue .array = true ∧
    (HandleMQTTMessage mgrEmpty "plant/dev7"
        (some [("address", .str "dev7"), ("value", .boolean true)]) 0).1.deviceCache.lookup
      { Topic := "plant/dev7", Address := "dev7" } = some { value := .boolean true, timestamp := 0 } ∧
    createRuleSnapshot
      (HandleMQTTMessage mgrEmpty "plant/dev7"
        (some [("address", .str "dev7"), ("value", .boolean true)]) 0).1 ruleBool 0 =
      some [("dev7", .boolean true)] ∧
    convertPayload [("dev7", .boolean true)] = none ∧
    Evaluate ruleBool [("dev7", .boolean true)] condBool 0 = (false, "", ruleBool) := by
  refine ⟨by decide, rfl, rfl, by decide, by decide, rfl, rfl⟩

/-! ### Witnesses -/

/-- Witness for C4 at a concrete limiter state: count 0 gives the base, count
5 gives the 8-fold cap. -/
theorem C4_witness :
    getCooldown mgrCount "7_3" 3 = getBaseCooldown 3 ∧
    getCooldown { mgrCount with alertCounts := [("7_3", 5)] } "7_3" 3 =
      8 * getBaseCooldown 3 :=
  ⟨C4_cooldown_formula.2.2.2.2.1 mgrCount "7_3" 3 (by decide),
   C4_cooldown_formula.2.2.2.2.2 { mgrCount with alertCounts := [("7_3", 5)] } "7_3" 3 (by decide)⟩

/-- Witness for C5: after a quiet period of more than `4 * base`, the next
effective cooldown is twice the base. -/
theorem C5_witness :
    getCooldown (markAlertTriggered mgrCount "7_3" 3 120000000001) "7_3" 3 =
      2 * getBaseCooldown 3 :=
  C5_mark_reset.2.2 mgrCount "7_3" 3 120000000001 0 rfl (by decide)

/-- Witness for C6 at concrete states: an unseen key always permits, and a
recorded key permits once its cooldown has elapsed. -/
theorem C6_witness :
    shouldTriggerAlert mgrCount "9_1" 1 5 = (true, mgrCount) ∧
    shouldTriggerAlert mgrCount "7_3" 3 120000000001 = (true, mgrCount) :=
  ⟨C6_idempotent_read.1 mgrCount "9_1" 1 5 rfl,
   by
    rw [C6_idempotent_read.2.1 mgrCount "7_3" 3 120000000001 0 rfl]
    norm_num [getCooldown, getBaseCooldown, nsPerSecond, durationOfFloat, mgrCount, List.lookup]⟩

/-! ### Snapshot lemmas (claim C7) -/

/-- The specification's per-topic requirement on the cache, worded from the
Value Snapshot invariant: the topic's cache entry exists, its age is at most
the TTL, and its value passes the validity filter. -/
def specFreshValidEntry (m : RuleManager) (topic : String) (now : Int) : Bool :=
  match m.deviceCache.lookup { Topic := topic, Address := extractAddressFromTopic topic } with
  | none => false
  | some cached => decide (now - cached.timestamp ≤ m.cacheTTL) && isValidValue cached.value

theorem snapshotLoop_cache_ok (m : RuleManager) (now : Int) :
    ∀ (topics : List String) (acc snap : List (String × GoValue)),
      snapshotLoop m now topics acc = some snap →
      ∀ t ∈ topics, specFreshValidEntry m t now = true := by
  intro topics
  induction topics with
  | nil =>
    intro acc snap _ t ht
    cases ht
  | cons hd tl ih =>
    intro acc snap h t ht
    unfold snapshotLoop at h
    simp only [] at h
    cases hc : m.deviceCache.lookup { Topic := hd, Address := extractAddressFromTopic hd } with
    | none => rw [hc] at h; cases h
    | some cached =>
      rw [hc] at h
      simp only [] at h
      by_cases hbad : (decide (now - cached.timestamp > m.cacheTTL) || !isValidValue cached.value) = true
      · rw [if_pos hbad] at h; cases h
      · rw [if_neg hbad] at h
        rcases List.mem_cons.mp ht with rfl | htl
        · unfold specFreshValidEntry
          rw [hc]
          simp only [Bool.or_eq_true, Bool.not_eq_true', decide_eq_true_eq, not_or] at hbad
          simp [hbad.1, hbad.2, not_lt.mp hbad.1]
        · exact ih _ _ h t htl

theorem snapshotLoop_keeps (m : RuleManager) (now : Int) :
    ∀ (topics : List String) (acc snap : List (String × GoValue)) (k : String),
      snapshotLoop m now topics acc = some snap →
      (acc.lookup k).isSome = true → (snap.lookup k).isSome = true := by
  intro topics
  induction topics with
  | nil =>
    intro acc snap k h hk
    unfold snapshotLoop at h
    injection h with h
    rw [← h]
    exact hk
  | cons hd tl ih =>
    intro acc snap k h hk
    unfold snapshotLoop at h
    simp only [] at h
    cases hc : m.deviceCache.lookup { Topic := hd, Address := extractAddressFromTopic hd } with
    | none => rw [hc] at h; cases h
    | some cached =>
      rw [hc] at h
      simp only [] at h
      by_cases hbad : (decide (now - cached.timestamp > m.cacheTTL) || !isValidValue cached.value) = true
      · rw [if_pos hbad] at h; cases h
      · rw [if_neg hbad] at h
        exact ih _ _ k h (lookup_mapInsert_isSome _ _ _ _ hk)

theorem snapshotLoop_covers (m : RuleManager) (now : Int) :
    ∀ (topics : List String) (acc snap : List (String × GoValue)) (t : String),
      snapshotLoop m now topics acc = some snap → t ∈ topics →
      (snap.lookup (extractAddressFromTopic t)).isSome = true := by
  intro topics
  induction topics with
  | nil =>
    intro acc snap t _ ht
    cases ht
  | cons hd tl ih =>
    intro acc snap t h ht
    unfold snapshotLoop at h
    simp only [] at h
    cases hc : m.deviceCache.lookup { Topic := hd, Address := extractAddressFromTopic hd } with
    | none => rw [hc] at h; cases h
    | some cached =>
      rw [hc] at h
      simp only [] at h
      by_cases hbad : (decide (now - cached.timestamp > m.cacheTTL) || !isValidValue cached.value) = true
      · rw [if_pos hbad] at h; cases h
      · rw [if_neg hbad] at h
        rcases List.mem_cons.mp ht with rfl | htl
        · exact snapshotLoop_keeps m now tl _ snap _ h
            (by rw [lookup_mapInsert_self]; rfl)
        · exact ih _ _ t h htl

/-! ### Claim C7 -/

/-- C7: a non-`nil` snapshot covers every topic of the rule — each topic's
last path segment is a key of the snapshot, and each topic's cache entry
exists, is at most `cacheTTL` old, and passes the validity filter; no
partial snapshot is ever returned. -/
theorem C7_snapshot_total (m : RuleManager) (rule : AlertRule) (now : Int)
    (snap : List (String × GoValue)) (h : createRuleSnapshot m rule now = some snap) :
    ∀ t ∈ rule.topics,
      (snap.lookup (extractAddressFromTopic t)).isSome = true ∧
      specFreshValidEntry m t now = true := by
  unfold createRuleSnapshot at h
  cases hs : snapshotLoop m now rule.topics [] with
  | none => rw [hs] at h; cases h
  | some snap0 =>
    rw [hs] at h
    simp only [] at h
    by_cases hlen : snap0.length = rule.topics.length
    · rw [if_pos hlen] at h
      injection h with h
      subst h
      intro t ht
      exact ⟨snapshotLoop_covers m now rule.topics [] snap0 t hs ht,
        snapshotLoop_cache_ok m now rule.topics [] snap0 hs t ht⟩
    · rw [if_neg hlen] at h; cases h

/-- A manager whose cache holds a fresh valid reading for `plant/dev7`. -/
def mgrCache : RuleManager :=
  { mgrEmpty with
    deviceCache := [({ Topic := "plant/dev7", Address := "dev7" },
                     { value := .f64 15, timestamp := 0 })] }

/-- Witness for C7 on a concrete one-topic rule whose snapshot succeeds. -/
theorem C7_witness :
    (List.lookup (extractAddressFromTopic "plant/dev7") [("dev7", GoValue.f64 15)]).isSome = true ∧
    specFreshValidEntry mgrCache "plant/dev7" 0 = true :=
  C7_snapshot_total mgrCache ruleBool 0 [("dev7", GoValue.f64 15)] (by decide) "plant/dev7"
    (by decide)

/-! ### Claim C8 -/

/-- C8: when the topic's last path segment differs from the payload's
`address` field, `HandleMQTTMessage` leaves the cache untouched and signals
no rule. -/
theorem C8_mismatch_no_update (m : RuleManager) (topic : String)
    (msg : List (String × GoValue)) (now : Int) (a : String)
    (haddr : msg.lookup "address" = some (.str a))
    (hne : extractAddressFromTopic topic ≠ a) :
    HandleMQTTMessage m topic (some msg) now = (m, []) := by
  unfold HandleMQTTMessage
  simp only []
  rw [haddr]
  simp only []
  cases hv : msg.lookup "value" with
  | none => rfl
  | some value =>
    by_cases hval : isValidValue value = true
    · simp [hval, hne]
    · simp [hval]

/-- Witness for C8 at a concrete mismatched delivery (scenario S6). -/
theorem C8_witness :
    HandleMQTTMessage mgrEmpty "s/d1"
      (some [("address", GoValue.str "d2"), ("value", GoValue.f64 15)]) 0 = (mgrEmpty, []) :=
  C8_mismatch_no_update mgrEmpty "s/d1" [("address", GoValue.str "d2"), ("value", GoValue.f64 15)]
    0 "d2" (by decide) (by decide)

/-! ### Claim C3 -/

/-- Atom semantics as the claim words it: the atom must split into exactly
three whitespace-separated tokens `deviceRef op rhs`; the device must resolve
in the snapshot; `op` must be one of the six comparators; `rhs` is a decimal
literal or another device reference resolved in the same snapshot; any
failure yields `false`. -/
def specAtomEval (atom : String) (values : List (String × ℚ)) : Bool :=
  match goFields atom with
  | [deviceRef, op, rhs] =>
    match values.lookup deviceRef with
    | none => false
    | some lhs =>
      match (match parseFloat? rhs with | some t => some t | none => values.lookup rhs) with
      | none => false
      | some t =>
        if op = ">" ∨ op = "<" ∨ op = ">=" ∨ op = "<=" ∨ op = "==" ∨ op = "!=" then
          if op = ">" then decide (lhs > t)
          else if op = "<" then decide (lhs < t)
          else if op = ">=" then decide (lhs ≥ t)
          else if op = "<=" then decide (lhs ≤ t)
          else if op = "==" then decide (lhs = t)
          else decide (lhs ≠ t)
        else false
  | _ => false

theorem evaluateSingleCondition_eq_spec (atom : String) (values : List (String × ℚ)) :
    evaluateSingleCondition atom values = specAtomEval atom values := by
  unfold evaluateSingleCondition specAtomEval
  cases goFields atom with
  | nil => rfl
  | cons a tl =>
    cases tl with
    | nil => rfl
    | cons b tl2 =>
      cases tl2 with
      | nil => rfl
      | cons cc tl3 =>
        cases tl3 with
        | cons d tl4 => rfl
        | nil =>
          simp only []
          cases values.lookup a with
          | none => rfl
          | some lhs =>
            simp only []
            cases (match parseFloat? cc with | some t => some t | none => values.lookup cc) with
            | none => rfl
            | some t =>
              simp only []
              by_cases h1 : b = ">"
              · simp [h1]
              by_cases h2 : b = "<"
              · simp [h1, h2]
              by_cases h3 : b = ">="
              · simp [h1, h2, h3]
              by_cases h4 : b = "<="
              · simp [h1, h2, h3, h4]
              by_cases h5 : b = "=="
              · simp [h1, h2, h3, h4, h5]
              by_cases h6 : b = "!="
              · simp [h1, h2, h3, h4, h5, h6]
              · simp [h1, h2, h3, h4, h5, h6]

/-- C3: an operator string containing `AND` evaluates as the conjunction of
its trimmed atoms, one containing `OR` (and not `AND`) as the disjunction;
each atom follows the three-token semantics in which a missing device, an
unrecognised operator, an unresolvable right-hand side, or a wrong token
count yields `false`. -/
theorem C3_compound_semantics :
    (∀ (op : String) (values : List (String × ℚ)), strContains op "AND" = true →
        evaluateComplexCondition op values =
          ((goSplit op "AND").map goTrimSpace).all
            (fun atom => evaluateSingleCondition atom values)) ∧
    (∀ (op : String) (values : List (String × ℚ)),
        strContains op "AND" = false → strContains op "OR" = true →
        evaluateComplexCondition op values =
          ((goSplit op "OR").map goTrimSpace).any
            (fun atom => evaluateSingleCondition atom values)) ∧
    (∀ (atom : String) (values : List (String × ℚ)),
        evaluateSingleCondition atom values = specAtomEval atom values) := by
  refine ⟨?_, ?_, evaluateSingleCondition_eq_spec⟩
  · intro op values h
    unfold evaluateComplexCondition
    simp [h, evaluateANDConditions]
  · intro op values hno hor
    unfold evaluateComplexCondition
    simp [hno, evaluateORConditions]

/-- Witness for C3 on the compound conditions of scenario S2. -/
theorem C3_witness :
    evaluateComplexCondition "D800 < 900 AND D392 == D166"
        [("D800", 850), ("D392", 5), ("D166", 5)] =
      ((goSplit "D800 < 900 AND D392 == D166" "AND").map goTrimSpace).all
        (fun atom => evaluateSingleCondition atom [("D800", 850), ("D392", 5), ("D166", 5)]) ∧
    evaluateComplexCondition "D800 < 900 OR D166 != 0" [("D800", 950), ("D166", 5)] =
      ((goSplit "D800 < 900 OR D166 != 0" "OR").map goTrimSpace).any
        (fun atom => evaluateSingleCondition atom [("D800", 950), ("D166", 5)]) ∧
    evaluateSingleCondition "D800 < 900" [("D800", 850)] =
      specAtomEval "D800 < 900" [("D800", 850)] :=
  ⟨C3_compound_semantics.1 "D800 < 900 AND D392 == D166"
      [("D800", 850), ("D392", 5), ("D166", 5)] (by decide),
   C3_compound_semantics.2.1 "D800 < 900 OR D166 != 0" [("D800", 950), ("D166", 5)]
      (by decide) (by decide),
   C3_compound_semantics.2.2 "D800 < 900" [("D800", 850)]⟩

/-! ### Claim C1 -/

/-- A simple condition on device `d1` whose comparison fails on the example
snapshot (5 > 10 is false). -/
def condLow : AlertCondition :=
  { id := 1, device := "d1", operator := ">", threshold := 10,
    messageTemplate := "m1", level := 1 }

/-- A second condition of the same rule, on device `d2`, whose comparison
holds on the example snapshot (7 > 0). -/
def condAux : AlertCondition :=
  { id := 2, device := "d2", operator := ">", threshold := 0,
    messageTemplate := "m2", level := 1 }

/-- A two-condition rule over `s/d1` and `s/d2`. -/
def exRule : AlertRule :=
  { id := 7, topics := ["s/d1", "s/d2"], table := "alerts", field := "temp",
    machine := "machA", category := "catA", conditions := [condLow, condAux],
    lastAlertTime := [], cooldownPeriod := 30 * nsPerSecond }

/-- The example snapshot: `d1 = 5`, `d2 = 7`. -/
def exPayload : List (String × GoValue) := [("d1", .f64 5), ("d2", .f64 7)]

/-- C1 counterexample: on a snapshot where the passed condition's own
comparison is false (5 > 10) and its cooldown permits, `Evaluate` still
returns `triggered = true`, because `evaluateConditions` scans every
condition of the rule and the second condition holds (7 > 0).  This refutes
the claimed equivalence with the passed condition's own comparison. -/
theorem C1_counterexample :
    convertPayload exPayload = some [("d1", 5), ("d2", 7)] ∧
    checkSimpleCondition condLow [("d1", 5), ("d2", 7)] = false ∧
    (shouldAlert exRule condLow.id 0).1 = true ∧
    (Evaluate exRule exPayload condLow 0).1 = true :=
  ⟨by decide, by decide, by decide, by decide⟩

/-- C1 (amended): for a payload that converts, `Evaluate` returns
`triggered = true` iff the scan over all of the rule's conditions
(`evaluateConditions`) finds some condition that holds — not necessarily the
passed one — and the passed condition's per-condition cooldown permits. -/
theorem C1_amended_evaluate (r : AlertRule) (payload : List (String × GoValue))
    (c : AlertCondition) (now : Int) (fp : List (String × ℚ))
    (hconv : convertPayload payload = some fp) :
    ((Evaluate r payload c now).1 = true ↔
      ((evaluateConditions r fp).1 = true ∧ (shouldAlert r c.id now).1 = true)) := by
  unfold Evaluate
  rw [hconv]
  simp only []
  rcases hec : evaluateConditions r fp with ⟨b, dev⟩
  rcases hsa : shouldAlert r c.id now with ⟨ok, r2⟩
  cases b <;> cases ok <;> simp [hec, hsa]

/-- Witness for C1 (amended) at the example rule and snapshot, with the
second condition as the passed one. -/
theorem C1_witness :
    (Evaluate exRule exPayload condAux 0).1 = true ↔
      ((evaluateConditions exRule [("d1", 5), ("d2", 7)]).1 = true ∧
       (shouldAlert exRule condAux.id 0).1 = true) :=
  C1_amended_evaluate exRule exPayload condAux 0 [("d1", 5), ("d2", 7)] (by decide)

/-! ### Claim C2 -/

theorem shouldAlert_snd_fields (r : AlertRule) (id now : Int) :
    (shouldAlert r id now).2.table = r.table ∧
    (shouldAlert r id now).2.conditions = r.conditions := by
  unfold shouldAlert
  split
  · exact ⟨rfl, rfl⟩
  · split <;> exact ⟨rfl, rfl⟩

theorem Evaluate_snd_fields (r : AlertRule) (payload : List (String × GoValue))
    (c : AlertCondition) (now : Int) :
    (Evaluate r payload c now).2.2.table = r.table ∧
    (Evaluate r payload c now).2.2.conditions = r.conditions := by
  unfold Evaluate
  cases convertPayload payload with
  | none => exact ⟨rfl, rfl⟩
  | some fp =>
    simp only []
    split
    · exact ⟨rfl, rfl⟩
    · have hf := shouldAlert_snd_fields r c.id now
      rcases hsa : shouldAlert r c.id now with ⟨ok, r2⟩
      rw [hsa] at hf
      cases ok <;> simp only [hsa] <;> exact hf

theorem evalRuleLoop_calls (snapshot : List (String × GoValue)) (now : Int) :
    ∀ (conds : List AlertCondition) (m : RuleManager) (rule : AlertRule) (call : sinkCall),
      call ∈ (evalRuleLoop m rule snapshot now conds).2.2 →
      call.table = rule.table ∧ (conds.any (fun c => call.device == c.device)) = true := by
  intro conds
  induction conds with
  | nil =>
    intro m rule call h
    simp [evalRuleLoop] at h
  | cons condition rest ih =>
    intro m rule call h
    unfold evalRuleLoop at h
    rcases hE : Evaluate rule snapshot condition now with ⟨triggered, message, rule2⟩
    rw [hE] at h
    simp only [] at h
    have hf := Evaluate_snd_fields rule snapshot condition now
    rw [hE] at hf
    cases triggered
    · rw [if_neg (by simp)] at h
      obtain ⟨ht, hd⟩ := ih m rule2 call h
      refine ⟨by rw [ht, hf.1], ?_⟩
      simp [List.any_cons, hd]
    · rw [if_pos rfl] at h
      split at h
      next m1 heq =>
        simp only [] at h
        rcases List.mem_cons.mp h with rfl | hmem
        · exact ⟨hf.1, by simp⟩
        · obtain ⟨ht, hd⟩ := ih _ rule2 call hmem
          refine ⟨by rw [ht, hf.1], ?_⟩
          simp [List.any_cons, hd]
      next m1 heq =>
        obtain ⟨ht, hd⟩ := ih m1 rule2 call h
        refine ⟨by rw [ht, hf.1], ?_⟩
        simp [List.any_cons, hd]

/-- A manager holding one fresh reading for `s/d1` with an empty limiter. -/
def exManager : RuleManager :=
  { Rules := [exRule], ruleChans := [7],
    deviceCache := [({ Topic := "s/d1", Address := "d1" },
                     { value := .f64 15, timestamp := 0 })],
    cacheTTL := 300 * nsPerSecond, lastAlertTimes := [], alertCounts := [] }

/-- The one-condition restriction of `exRule` to topic `s/d1`. -/
def exRuleSingle : AlertRule :=
  { exRule with topics := ["s/d1"], conditions := [condLow] }

/-- C2 counterexample: a permitted trigger persists exactly the sink table,
the device and the message — the rule's category `catA` and machine `machA`
appear in none of the inputs handed to the sink, and the POSTed request body
has only the `device_id` and `message` fields. -/
theorem C2_counterexample :
    (evaluateRule exManager exRuleSingle 0).2.2 =
      [{ table := "alerts", device := "d1", message := generateAlertMessage condLow 15 }] ∧
    exRuleSingle.category = "catA" ∧ exRuleSingle.machine = "machA" ∧
    insertAlertRequestBody "d1" (generateAlertMessage condLow 15) =
      [("device_id", "d1"), ("message", generateAlertMessage condLow 15)] ∧
    generateAlertMessage condLow 15 ≠ "catA" ∧ generateAlertMessage condLow 15 ≠ "machA" ∧
    "alerts" ≠ "catA" ∧ "alerts" ≠ "machA" ∧ "d1" ≠ "catA" ∧ "d1" ≠ "machA" ∧
    "device_id" ≠ "catA" ∧ "device_id" ≠ "machA" ∧ "message" ≠ "catA" ∧ "message" ≠ "machA" :=
  ⟨by rfl, rfl, rfl, rfl, by decide, by decide, by decide, by decide, by decide, by decide,
   by decide, by decide, by decide, by decide⟩

/-- C2 (amended): every alert the evaluation persists goes through the Sink
Adapter with three inputs — the rule's sink table, the device of one of the
rule's conditions, and the formatted message — and the persisted request body
carries exactly the `device_id` and `message` fields; the rule's category and
machine are not forwarded. -/
theorem C2_amended_sink_inputs (m : RuleManager) (rule : AlertRule) (now : Int) (call : sinkCall)
    (h : call ∈ (evaluateRule m rule now).2.2) :
    call.table = rule.table ∧
    (rule.conditions.any (fun c => call.device == c.device)) = true ∧
    insertAlertRequestBody call.device call.message =
      [("device_id", call.device), ("message", call.message)] := by
  unfold evaluateRule at h
  cases hs : createRuleSnapshot m rule now with
  | none => rw [hs] at h; simp at h
  | some snapshot =>
    rw [hs] at h
    simp only [] at h
    obtain ⟨ht, hd⟩ := evalRuleLoop_calls snapshot now rule.conditions m rule call h
    exact ⟨ht, hd, rfl⟩

/-- Witness for C2 (amended) on the concrete triggering run. -/
theorem C2_witness :
    ({ table := "alerts", device := "d1", message := generateAlertMessage condLow 15 } :
        sinkCall).table = exRuleSingle.table ∧
    (exRuleSingle.conditions.any
      (fun c => ({ table := "alerts", device := "d1",
                   message := generateAlertMessage condLow 15 } : sinkCall).device == c.device)) =
      true ∧
    insertAlertRequestBody
        ({ table := "alerts", device := "d1", message := generateAlertMessage condLow 15 } :
          sinkCall).device
        ({ table := "alerts", device := "d1", message := generateAlertMessage condLow 15 } :
          sinkCall).message =
      [("device_id",
        ({ table := "alerts", device := "d1", message := generateAlertMessage condLow 15 } :
          sinkCall).device),
       ("message",
        ({ table := "alerts", device := "d1", message := generateAlertMessage condLow 15 } :
          sinkCall).message)] :=
  C2_amended_sink_inputs exManager exRuleSingle 0
    { table := "alerts", device := "d1", message := generateAlertMessage condLow 15 }
    (by
      rw [show (evaluateRule exManager exRuleSingle 0).2.2 =
        [{ table := "alerts", device := "d1", message := generateAlertMessage condLow 15 }] from rfl]
      exact List.mem_singleton.mpr rfl)

end GoAlert
